import Mathlib

/-!
Shallow embedding of `app.py` (Alexa voice middleware for Kodi on an Nvidia
Shield) and verification of its specification claims.

External effects (HTTP calls to TMDB, Trakt and the Kodi JSON-RPC endpoint,
ADB/Wake-on-LAN commands) are modelled as explicit oracle parameters; the
persisted Trakt token file is threaded as an explicit store value.  Background
threads started by the webhook handler never influence the HTTP reply, so the
handler records the playback locators it hands to worker threads in an effect
list instead of running them.
-/

namespace KodiSkill

/-- Python runtime values as they occur in this program: `None`, booleans,
integers and strings (JSON scalars flowing through slots, session attributes
and API results). -/
inductive PyVal where
  | none
  | bool (b : Bool)
  | int (n : Int)
  | str (s : String)
deriving DecidableEq

/-- Python truthiness for the values above (`None`, `False`, `0` and `""` are
falsy). -/
def PyVal.truthy : PyVal → Bool
  | .none => false
  | .bool b => b
  | .int n => decide (n ≠ 0)
  | .str s => decide (s ≠ "")

/-- Python `str()` / f-string rendering of a value. -/
def PyVal.toStr : PyVal → String
  | .none => "None"
  | .bool true => "True"
  | .bool false => "False"
  | .int n => toString n
  | .str s => s

/-- Truthiness of an optional environment/string value (`os.getenv` result):
`None` and the empty string are falsy. -/
def optTruthy : Option String → Bool
  | Option.none => false
  | Option.some s => decide (s ≠ "")

/-- Python `dict.get(k)` on a string-keyed dictionary (returns `None` when the
key is absent). -/
def dget (d : List (String × PyVal)) (k : String) : PyVal :=
  (d.lookup k).getD PyVal.none

/-- Python `dict.get(k, default)`. -/
def dgetD (d : List (String × PyVal)) (k : String) (dflt : PyVal) : PyVal :=
  (d.lookup k).getD dflt

/-- Outcome of one `requests` call: either a raised network exception, or a
response with an HTTP status code and a (parsed-JSON) body. -/
inductive HttpOutcome (α : Type) where
  | exn
  | resp (status : Nat) (body : α)
deriving DecidableEq

/-- The environment-variable configuration read at module load
(section 1 of `app.py`).  `PLAYER_DEFAULT`/`PLAYER_SELECT` carry their
`os.getenv` defaults (`"fenlight_auto.json"` / `"fenlight_select.json"`), so a
plain `String` models them; the rest are `os.getenv` results. -/
structure Config where
  TMDB_API_KEY : Option String
  TRAKT_CLIENT_ID : Option String
  TRAKT_CLIENT_SECRET : Option String
  ENV_TRAKT_ACCESS_TOKEN : Option String
  ENV_TRAKT_REFRESH_TOKEN : Option String
  SHIELD_IP : Option String
  SHIELD_MAC : Option String
  KODI_PORT : Option String
  PLAYER_DEFAULT : String
  PLAYER_SELECT : String
deriving DecidableEq

/-- The persisted token file `trakt_tokens.json`: `none` when the file is
absent (or unreadable), `some (access_token, refresh_token)` when present.
The `updated_at` timestamp the file also carries is never read back by the
program. -/
structure TokenStore where
  file : Option (String × String)
deriving DecidableEq

/-- Embeds `save_trakt_token_data`: writes a whole fresh record
`{access_token, refresh_token, updated_at}` over the file. -/
def save_trakt_token_data (access_token refresh_token : String)
    (_st : TokenStore) : TokenStore :=
  ⟨some (access_token, refresh_token)⟩

/-- Embeds `load_trakt_token`: prefer the persisted file (when both tokens in
it are truthy), else bootstrap from the environment pair (persisting it), else
`None`. -/
def load_trakt_token (cfg : Config) (st : TokenStore) :
    Option String × TokenStore :=
  match st.file with
  | some (a, r) =>
    if a ≠ "" ∧ r ≠ "" then (some a, st)
    else
      match cfg.ENV_TRAKT_ACCESS_TOKEN, cfg.ENV_TRAKT_REFRESH_TOKEN with
      | some ea, some er =>
        if ea ≠ "" ∧ er ≠ "" then (some ea, save_trakt_token_data ea er st)
        else (Option.none, st)
      | _, _ => (Option.none, st)
  | Option.none =>
    match cfg.ENV_TRAKT_ACCESS_TOKEN, cfg.ENV_TRAKT_REFRESH_TOKEN with
    | some ea, some er =>
      if ea ≠ "" ∧ er ≠ "" then (some ea, save_trakt_token_data ea er st)
      else (Option.none, st)
    | _, _ => (Option.none, st)

/-- Embeds `get_refresh_token_from_storage`: the file's refresh token when the
file exists, else the environment bootstrap refresh token. -/
def get_refresh_token_from_storage (cfg : Config) (st : TokenStore) :
    Option String :=
  match st.file with
  | some (_, r) => some r
  | Option.none => cfg.ENV_TRAKT_REFRESH_TOKEN

/-- Embeds `refresh_trakt_token_online`.  `tokenEndpoint` models the Trakt
OAuth token endpoint as a function of the `refresh_token` sent in the payload;
its 200 body carries the new `access_token`/`refresh_token` pair.  Returns the
new access token (or `none`) together with the resulting token store. -/
def refresh_trakt_token_online (cfg : Config)
    (tokenEndpoint : String → HttpOutcome (String × String))
    (st : TokenStore) : Option String × TokenStore :=
  match get_refresh_token_from_storage cfg st with
  | Option.none => (Option.none, st)
  | some rt =>
    if rt = "" ∨ optTruthy cfg.TRAKT_CLIENT_SECRET = false then
      (Option.none, st)
    else
      match tokenEndpoint rt with
      | .exn => (Option.none, st)
      | .resp status (a, r) =>
        if status = 200 then (some a, save_trakt_token_data a r st)
        else (Option.none, st)

/-! ## Trakt metadata resolver (`get_trakt_next_episode` and its resilient
request wrapper) -/

/-- JSON bodies returned by the two Trakt GET endpoints used by
`get_trakt_next_episode`: the tmdb-search results (the list of
`results[i]['show']['ids']['trakt']` ids) and the watched-progress body (its
optional `next_episode` season/number pair).  `malformed` stands for any body
whose shape makes the subsequent field accesses raise (caught by the outer
`try`). -/
inductive TraktBody where
  | searchResults (hits : List Int)
  | progressBody (next_episode : Option (Int × Int))
  | malformed
deriving DecidableEq

/-- Behaviour of the external Trakt service: `respond url bearer` is the
deterministic outcome of `requests.get(url)` carrying `Authorization: Bearer
bearer`, and `tokenEndpoint` is the OAuth refresh exchange (see
`refresh_trakt_token_online`). -/
structure TraktEnv where
  respond : String → String → HttpOutcome TraktBody
  tokenEndpoint : String → HttpOutcome (String × String)

/-- Instrumentation of the outbound traffic of one resilient request:
the `(url, bearer token)` pairs actually issued, in order, and how many times
`refresh_trakt_token_online` was invoked. -/
structure ReqLog where
  requests : List (String × String)
  refreshes : Nat
deriving DecidableEq

/-- Concatenation of two request logs. -/
def ReqLog.append (l₁ l₂ : ReqLog) : ReqLog :=
  ⟨l₁.requests ++ l₂.requests, l₁.refreshes + l₂.refreshes⟩

/-- Embeds the `make_request` closure inside `get_trakt_next_episode`: issue
the GET with the current bearer token; on a 401, call
`refresh_trakt_token_online` once and, if it produced a new token, retry the
identical URL once with the new token in the Authorization header, surfacing
the retry's outcome as-is.  Returns the outcome, the (possibly updated) header
token, the token store and the request log. -/
def make_request (cfg : Config) (env : TraktEnv) (url token : String)
    (st : TokenStore) : HttpOutcome TraktBody × String × TokenStore × ReqLog :=
  match env.respond url token with
  | .exn => (.exn, token, st, ⟨[(url, token)], 0⟩)
  | .resp status body =>
    if status = 401 then
      match refresh_trakt_token_online cfg env.tokenEndpoint st with
      | (some new_t, st') =>
        (env.respond url new_t, new_t, st', ⟨[(url, token), (url, new_t)], 1⟩)
      | (Option.none, st') =>
        (.resp status body, token, st', ⟨[(url, token)], 1⟩)
    else (.resp status body, token, st, ⟨[(url, token)], 0⟩)

/-- The Trakt tmdb-search URL built by `get_trakt_next_episode` (f-string over
the tmdb show id). -/
def trakt_search_url (tmdb_show_id : PyVal) : String :=
  "https://api.trakt.tv/search/tmdb/" ++ tmdb_show_id.toStr ++ "?type=show"

/-- The Trakt watched-progress URL (f-string over the trakt show id). -/
def trakt_progress_url (trakt_id : Int) : String :=
  "https://api.trakt.tv/shows/" ++ toString trakt_id ++ "/progress/watched"

/-- Embeds `get_trakt_next_episode`: load the token, resolve the show's trakt
id via search, then fetch the watched progress; both requests go through
`make_request`.  Returns the `(season, number)` pair as the Python values the
caller sees (`(None, None)` on any miss), the resulting token store, and the
combined request log. -/
def get_trakt_next_episode (cfg : Config) (env : TraktEnv)
    (tmdb_show_id : PyVal) (st : TokenStore) :
    (PyVal × PyVal) × TokenStore × ReqLog :=
  match load_trakt_token cfg st with
  | (Option.none, st₁) => ((.none, .none), st₁, ⟨[], 0⟩)
  | (some tok, st₁) =>
    if optTruthy cfg.TRAKT_CLIENT_ID = false then ((.none, .none), st₁, ⟨[], 0⟩)
    else
      match make_request cfg env (trakt_search_url tmdb_show_id) tok st₁ with
      | (.exn, _, st₂, log₁) => ((.none, .none), st₂, log₁)
      | (.resp status body, tok₂, st₂, log₁) =>
        if status ≠ 200 then ((.none, .none), st₂, log₁)
        else
          match body with
          | .searchResults (tid :: _) =>
            match make_request cfg env (trakt_progress_url tid) tok₂ st₂ with
            | (.exn, _, st₃, log₂) => ((.none, .none), st₃, log₁.append log₂)
            | (.resp status₂ body₂, _, st₃, log₂) =>
              if status₂ ≠ 200 then ((.none, .none), st₃, log₁.append log₂)
              else
                match body₂ with
                | .progressBody (some (s, n)) =>
                  ((.int s, .int n), st₃, log₁.append log₂)
                | _ => ((.none, .none), st₃, log₁.append log₂)
          | _ => ((.none, .none), st₂, log₁)

/-! ## Device power controller (`is_kodi_responsive`, `wake_and_start_kodi`) -/

/-- Embeds `is_kodi_responsive` applied to one probe outcome: requires the
module-level `KODI_BASE_URL` (built only when `SHIELD_IP` and `KODI_PORT` are
truthy) and accepts statuses 200, 401 and 405 as "alive". -/
def is_kodi_responsive (cfg : Config) (probe : HttpOutcome Nat) : Bool :=
  if optTruthy cfg.SHIELD_IP = false ∨ optTruthy cfg.KODI_PORT = false then
    false
  else
    match probe with
    | .exn => false
    | .resp status _ => decide (status = 200 ∨ status = 401 ∨ status = 405)

/-- Side effects attempted by one `wake_and_start_kodi` call: counts of
Wake-on-LAN packets, `adb connect`s, WAKEUP key-events and remote app
launches; how many probes ran before and inside the 45-iteration polling
loop; and whether the 4-second stabilization sleep preceded a successful
return.  The wake commands sit in `try` blocks whose exceptions are swallowed
(an exception would only truncate the command sequence), so the counts below
are those of the non-raising execution, an upper bound for every run. -/
structure WakeEffects where
  wol : Nat
  adb_connect : Nat
  wakeup_keyevents : Nat
  app_launch : Nat
  pre_polls : Nat
  loop_polls : Nat
  stabilized : Bool
deriving DecidableEq

/-- The `for i in range(45)` polling loop of `wake_and_start_kodi`:
`probe i` is the outcome of the `i`-th loop probe.  Returns the result, the
number of probes performed, and whether the 4-second stabilization sleep ran
before the successful return. -/
def wake_poll_loop (cfg : Config) (probe : Nat → HttpOutcome Nat) :
    Nat → Nat → Bool × Nat × Bool
  | 0, _ => (false, 0, false)
  | fuel + 1, i =>
    if is_kodi_responsive cfg (probe i) then (true, 1, true)
    else
      match wake_poll_loop cfg probe fuel (i + 1) with
      | (r, polls, stab) => (r, polls + 1, stab)

/-- Embeds `wake_and_start_kodi`.  `probe n` is the outcome of the `n`-th
`is_kodi_responsive` probe the call performs (probe 0 before any wake
command, probe 1 after the WAKEUP key-events, probes 2.. inside the polling
loop). -/
def wake_and_start_kodi (cfg : Config) (probe : Nat → HttpOutcome Nat) :
    Bool × WakeEffects :=
  if optTruthy cfg.SHIELD_IP = false ∨ optTruthy cfg.SHIELD_MAC = false then
    (false, ⟨0, 0, 0, 0, 0, 0, false⟩)
  else if is_kodi_responsive cfg (probe 0) then
    (true, ⟨0, 0, 0, 0, 1, 0, false⟩)
  else
    -- send_magic_packet; adb connect; WAKEUP; sleep 0.5; WAKEUP
    if is_kodi_responsive cfg (probe 1) then
      (true, ⟨1, 1, 2, 0, 2, 0, false⟩)
    else
      -- adb shell am start -n org.xbmc.kodi/.Splash
      match wake_poll_loop cfg (fun i => probe (2 + i)) 45 0 with
      | (r, polls, stab) => (r, ⟨1, 1, 2, 1, 2, polls, stab⟩)

/-! ## TMDB metadata resolver -/

/-- Behaviour of the external TMDB service, one field per endpoint used by the
program.  `searchMovie query year? lang` is the parsed `results` list of
`(id, title, release_date)` triples (the `year` argument is present exactly
when the caller's `year` was truthy); `searchShow` yields `(id, name)` pairs;
`episode id season ep` yields the status of the episode-details request;
`showDetails id` yields the parsed `last_episode_to_air`
`(season_number, episode_number)` pair when present.  A missing or empty
`results` field is the empty list. -/
structure TmdbEnv where
  searchMovie : PyVal → Option PyVal → String →
    HttpOutcome (List (PyVal × PyVal × String))
  searchShow : PyVal → String → HttpOutcome (List (PyVal × PyVal))
  episode : PyVal → PyVal → PyVal → HttpOutcome Nat
  showDetails : PyVal → HttpOutcome (Option (Int × Int))

/-- The `"fr-FR" if lang == "fr" else "en-US"` language-tag conversion shared
by the TMDB search helpers. -/
def tmdb_lang_of (lang : String) : String :=
  if lang = "fr" then "fr-FR" else "en-US"

/-- Embeds `search_tmdb_movie`: first search hit's id, title and the first
four characters of its release date, or `(None, None, None)`. -/
def search_tmdb_movie (cfg : Config) (env : TmdbEnv) (query year : PyVal)
    (lang : String) : PyVal × PyVal × PyVal :=
  if optTruthy cfg.TMDB_API_KEY = false then (.none, .none, .none)
  else
    match env.searchMovie query (if year.truthy then some year else Option.none)
        (tmdb_lang_of lang) with
    | .exn => (.none, .none, .none)
    | .resp _ [] => (.none, .none, .none)
    | .resp _ ((id, title, release_date) :: _) =>
      (id, title, .str ⟨release_date.data.take 4⟩)

/-- Embeds `search_tmdb_show`: first search hit's id and name, or
`(None, None)`. -/
def search_tmdb_show (cfg : Config) (env : TmdbEnv) (query : PyVal)
    (lang : String) : PyVal × PyVal :=
  if optTruthy cfg.TMDB_API_KEY = false then (.none, .none)
  else
    match env.searchShow query (tmdb_lang_of lang) with
    | .exn => (.none, .none)
    | .resp _ [] => (.none, .none)
    | .resp _ ((id, name) :: _) => (id, name)

/-- Embeds `check_episode_exists`: `False` when the TMDB key is unset, the
status-is-200 test on a response, and `True` (fail-open) when the request
raised. -/
def check_episode_exists (cfg : Config) (env : TmdbEnv)
    (tmdb_id season episode : PyVal) : Bool :=
  if optTruthy cfg.TMDB_API_KEY = false then false
  else
    match env.episode tmdb_id season episode with
    | .exn => true
    | .resp status _ => decide (status = 200)

/-- Embeds `get_tmdb_last_aired`: the `last_episode_to_air` season/episode
numbers, or `(None, None)`. -/
def get_tmdb_last_aired (cfg : Config) (env : TmdbEnv) (tmdb_id : PyVal) :
    PyVal × PyVal :=
  if optTruthy cfg.TMDB_API_KEY = false then (.none, .none)
  else
    match env.showDetails tmdb_id with
    | .exn => (.none, .none)
    | .resp _ Option.none => (.none, .none)
    | .resp _ (some (s, e)) => (.int s, .int e)

/-! ## Playback locator builder -/

/-- Embeds `get_playback_url`: deep-link construction over the
themoviedb.helper plugin, selecting the manual-source player exactly when
`force_select` is truthy.  All interpolated arguments render through the
f-string (`PyVal.toStr`). -/
def get_playback_url (cfg : Config) (tmdb_id : PyVal) (media_type : String)
    (season episode : PyVal) (force_select : PyVal) : Option String :=
  let p_def := if cfg.PLAYER_DEFAULT ≠ "" then cfg.PLAYER_DEFAULT
    else "fenlight_auto.json"
  let p_sel := if cfg.PLAYER_SELECT ≠ "" then cfg.PLAYER_SELECT
    else "fenlight_select.json"
  let target_player := if force_select.truthy then p_sel else p_def
  let url := "plugin://plugin.video.themoviedb.helper/?info=play" ++
    "&player=" ++ target_player
  if media_type = "movie" then
    some (url ++ "&tmdb_id=" ++ tmdb_id.toStr ++ "&type=movie")
  else if media_type = "episode" then
    some (url ++ "&tmdb_id=" ++ tmdb_id.toStr ++ "&season=" ++ season.toStr ++
      "&episode=" ++ episode.toStr ++ "&type=episode")
  else Option.none

/-! ## Webhook handler -/

/-- Argument-list rendering used by the text lookup model below. -/
def joinArgs : List PyVal → String
  | [] => ""
  | [a] => a.toStr
  | a :: rest => a.toStr ++ "," ++ joinArgs rest

/-- Modelled from the spec: `translations.json` is not part of the sources
(only `app.py` is), and the spec treats localized string lookup as an external
"pure key → template mapping".  `get_text` is therefore modelled as an
injective canonical rendering of the key, the language and the formatted
arguments, so distinct reply keys yield distinct reply texts. -/
def get_text (key lang : String) (args : List PyVal) : String :=
  key ++ "|" ++ lang ++ "|" ++ joinArgs args

/-- An Alexa JSON reply as built by `build_response`. -/
structure AlexaResponse where
  text : String
  shouldEndSession : Bool
  sessionAttributes : List (String × PyVal)
deriving DecidableEq

/-- Embeds `build_response` (Python defaults: `end_session=True`,
`attributes={}`). -/
def build_response (text : String) (end_session : Bool)
    (attributes : List (String × PyVal)) : AlexaResponse :=
  ⟨text, end_session, attributes⟩

/-- A well-formed inbound webhook body: request type, intent name, the slot
name → value mapping, the echoed session attributes, and the locale. -/
structure AlexaRequest where
  reqType : String
  intentName : String
  slots : List (String × PyVal)
  attributes : List (String × PyVal)
  locale : String
deriving DecidableEq

/-- The fixed behaviour of every external collaborator the handler consults
synchronously: TMDB, Trakt, and the Kodi device (one responsiveness probe,
the active video player id, and the item each player reports playing). -/
structure Services where
  tmdb : TmdbEnv
  trakt : TraktEnv
  kodi_probe : HttpOutcome Nat
  active_player : Option Int
  player_item : Int → Option (List (String × PyVal))

/-- Everything one `alexa_handler` call produces: the JSON reply, the token
store after the call, and the playback locators handed to detached worker
threads (which never influence the reply). -/
structure HandlerResult where
  response : AlexaResponse
  store : TokenStore
  dispatches : List (Option String)
deriving DecidableEq

/-- Embeds the `alexa_handler` webhook route for well-formed bodies.  Dict
accesses written `attributes['k']` in Python are modelled as `dget` lookups;
on the code paths below the keys are present whenever the enclosing branch
runs on contexts the program itself emitted (a missing key would raise
`KeyError` and surface as an HTTP 500, outside the dialogue model). -/
def alexa_handler (cfg : Config) (sv : Services) (req : AlexaRequest)
    (st : TokenStore) : HandlerResult :=
  let lang : String := ⟨req.locale.data.takeWhile (fun c => c ≠ '-')⟩
  if req.reqType = "LaunchRequest" then
    ⟨build_response (get_text "launch" lang []) false [], st, []⟩
  else if req.reqType = "IntentRequest" then
    let slots := req.slots
    let attributes := req.attributes
    let slot_source_mode := dget slots "SourceMode"
    let force_select : PyVal :=
      if slot_source_mode.truthy then .bool true
      else dgetD attributes "force_select" (.bool false)
    let manual_msg : String :=
      if force_select.truthy then get_text "manual_select" lang [] else ""
    if req.intentName = "TriggerPatcherIntent" then
      ⟨build_response (get_text "patcher_triggered" lang []) true [], st, []⟩
    else if req.intentName = "ChangeSourceIntent" then
      if is_kodi_responsive cfg sv.kodi_probe = false then
        ⟨build_response (get_text "kodi_offline" lang []) true [], st, []⟩
      else
        match sv.active_player with
        | Option.none =>
          ⟨build_response (get_text "nothing_playing" lang []) true [], st, []⟩
        | some player_id =>
          match sv.player_item player_id with
          | Option.none =>
            ⟨build_response (get_text "nothing_playing" lang []) true [], st, []⟩
          | some item =>
            let media_type := dget item "type"
            let title := dget item "title"
            let year := dget item "year"
            if media_type = .str "movie" then
              let r := search_tmdb_movie cfg sv.tmdb title year lang
              if r.1.truthy then
                let new_url :=
                  get_playback_url cfg r.1 "movie" .none .none (.bool true)
                ⟨build_response
                  (get_text "change_source_movie" lang [r.2.1]) true [],
                  st, [new_url]⟩
              else
                ⟨build_response (get_text "content_error" lang []) true [], st, []⟩
            else if media_type = .str "episode" then
              let show_title := dget item "showtitle"
              let season := dget item "season"
              let episode := dget item "episode"
              let r := search_tmdb_show cfg sv.tmdb show_title lang
              if r.1.truthy then
                let new_url :=
                  get_playback_url cfg r.1 "episode" season episode (.bool true)
                ⟨build_response
                  (get_text "change_source_episode" lang [r.2, season, episode])
                  true [], st, [new_url]⟩
              else
                ⟨build_response (get_text "content_error" lang []) true [], st, []⟩
            else
              ⟨build_response (get_text "content_error" lang []) true [], st, []⟩
    else if req.intentName = "ResumeTVShowIntent" then
      let query := dget slots "ShowName"
      if query.truthy = false then
        ⟨build_response (get_text "ask_show" lang []) false [], st, []⟩
      else
        let r := search_tmdb_show cfg sv.tmdb query lang
        if r.1.truthy = false then
          ⟨build_response (get_text "show_not_found" lang [query]) true [], st, []⟩
        else
          match get_trakt_next_episode cfg sv.trakt r.1 st with
          | ((s, e), st₂, _) =>
            if s.truthy ∧ e.truthy then
              let url := get_playback_url cfg r.1 "episode" s e force_select
              ⟨build_response
                (get_text "resume_show" lang [r.2, s, e, .str manual_msg])
                true [], st₂, [url]⟩
            else
              ⟨build_response (get_text "no_progress" lang [r.2]) false [],
                st₂, []⟩
    else if req.intentName = "PlayMovieIntent" then
      let query := dget slots "MovieName"
      let year_query := dget slots "MovieYear"
      if query.truthy = false then
        ⟨build_response (get_text "ask_movie" lang []) false [], st, []⟩
      else
        let r := search_tmdb_movie cfg sv.tmdb query year_query lang
        if r.1.truthy then
          let url := get_playback_url cfg r.1 "movie" .none .none force_select
          let year_str : String :=
            if lang = "en" then " (" ++ r.2.2.toStr ++ ")"
            else " de " ++ r.2.2.toStr
          let year_str := if r.2.2.truthy = false then "" else year_str
          ⟨build_response
            (get_text "launch_movie" lang [r.2.1, .str year_str, .str manual_msg])
            true [], st, [url]⟩
        else
          ⟨build_response (get_text "movie_not_found" lang [query]) true [], st, []⟩
    else if req.intentName = "PlayTVShowIntent" then
      let query := dget slots "ShowName"
      let season := dget slots "Season"
      let episode := dget slots "Episode"
      let after := fun (tmdb_id title : PyVal) (st' : TokenStore) =>
        if tmdb_id.truthy = false then
          ⟨build_response (get_text "show_not_found" lang [query]) true [],
            st', []⟩
        else if season.truthy ∧ episode.truthy then
          if check_episode_exists cfg sv.tmdb tmdb_id season episode then
            let url :=
              get_playback_url cfg tmdb_id "episode" season episode force_select
            ⟨build_response
              (get_text "launch_show" lang [title, season, episode, .str manual_msg])
              true [], st', [url]⟩
          else
            ⟨build_response (get_text "episode_not_found" lang []) false [],
              st', []⟩
        else
          match get_trakt_next_episode cfg sv.trakt tmdb_id st' with
          | ((trakt_s, trakt_e), st₂, _) =>
            let last := get_tmdb_last_aired cfg sv.tmdb tmdb_id
            let new_attr : List (String × PyVal) :=
              [("pending_show_id", tmdb_id), ("pending_show_name", title),
               ("step", .str "ask_playback_method"),
               ("force_select", force_select),
               ("trakt_next_s", trakt_s), ("trakt_next_e", trakt_e),
               ("tmdb_last_s", last.1), ("tmdb_last_e", last.2)]
            let msg :=
              if trakt_s.truthy then
                get_text "ask_resume" lang [title, trakt_s, trakt_e]
              else get_text "ask_start" lang [title]
            (⟨build_response msg false new_attr, st₂, []⟩ : HandlerResult)
      if query.truthy = false ∧ (dget attributes "pending_show_id").truthy then
        after (dget attributes "pending_show_id")
          (dget attributes "pending_show_name") st
      else if query.truthy then
        let r := search_tmdb_show cfg sv.tmdb query lang
        after r.1 r.2 st
      else
        ⟨build_response (get_text "ask_which_show" lang []) false [], st, []⟩
    else if req.intentName = "AMAZON.YesIntent" ∨
        req.intentName = "ResumeIntent" ∨
        req.intentName = "ReprendreIntent" then
      if dget attributes "step" = .str "ask_playback_method" then
        if (dget attributes "trakt_next_s").truthy then
          let s := dget attributes "trakt_next_s"
          let e := dget attributes "trakt_next_e"
          let title := dget attributes "pending_show_name"
          let url := get_playback_url cfg (dget attributes "pending_show_id")
            "episode" s e force_select
          let manual_txt : String :=
            if force_select.truthy then get_text "manual_select" lang [] else ""
          ⟨build_response
            (get_text "resume_show" lang [title, s, e, .str manual_txt])
            true [], st, [url]⟩
        else
          ⟨build_response (get_text "no_history" lang []) false [], st, []⟩
      else
        ⟨build_response (get_text "nothing_pending" lang []) true [], st, []⟩
    else if req.intentName = "LatestEpisodeIntent" then
      if dget attributes "step" = .str "ask_playback_method" then
        let s := dget attributes "tmdb_last_s"
        let e := dget attributes "tmdb_last_e"
        let title := dgetD attributes "pending_show_name" (.str "show")
        let url := get_playback_url cfg (dget attributes "pending_show_id")
          "episode" s e force_select
        ⟨build_response (get_text "launch_last" lang [title]) true [],
          st, [url]⟩
      else
        ⟨build_response (get_text "unavailable" lang []) true [], st, []⟩
    else if req.intentName = "AMAZON.NoIntent" ∨
        req.intentName = "AMAZON.StopIntent" ∨
        req.intentName = "AMAZON.CancelIntent" then
      ⟨build_response (get_text "cancelled" lang []) true [], st, []⟩
    else
      ⟨build_response (get_text "not_understood" lang []) true [], st, []⟩
  else
    ⟨build_response (get_text "not_understood" lang []) true [], st, []⟩

/-! ## Helper lemmas about the credential layer -/

/-! ## Shared concrete fixtures used by witnesses and counterexamples -/

/-- A fully configured deployment: all API keys, device addresses and token
bootstrap values present, players left to their defaults. -/
def cfgFull : Config :=
  ⟨some "tmdbkey", some "traktid", some "secret", Option.none, Option.none,
    some "10.0.0.2", some "aa:bb:cc:dd:ee:ff", some "8080", "", ""⟩

/-- A TMDB service whose every request raises a network exception. -/
def envExnTmdb : TmdbEnv :=
  ⟨fun _ _ _ => .exn, fun _ _ => .exn, fun _ _ _ => .exn, fun _ => .exn⟩

/-- A Trakt service for exercising the 401-refresh-retry path: the progress
service rejects every bearer token except `"N"`, and the token endpoint
exchanges any refresh token for the pair `("N", "R")`. -/
def envRetryTrakt : TraktEnv :=
  ⟨fun _ tok => if tok = "N" then .resp 200 (.progressBody Option.none)
    else .resp 401 .malformed,
   fun _ => .resp 200 ("N", "R")⟩

/-- A device that answers every probe with HTTP 500: never responsive. -/
def probeDown : Nat → HttpOutcome Nat := fun _ => .resp 500 0

/-- A deployment whose device hardware (MAC) address is not configured but
whose control endpoint address is. -/
def cfgNoMac : Config :=
  ⟨Option.none, Option.none, Option.none, Option.none, Option.none,
    some "10.0.0.2", Option.none, some "8080", "", ""⟩

/-- A device that answers every probe with HTTP 200: always responsive. -/
def probeUp : Nat → HttpOutcome Nat := fun _ => .resp 200 0

/-- A Trakt service whose every request raises. -/
def traktExn : TraktEnv := ⟨fun _ _ => .exn, fun _ => .exn⟩

/-- Services where every external collaborator is unreachable. -/
def svExn : Services :=
  ⟨envExnTmdb, traktExn, .exn, Option.none, fun _ => Option.none⟩

/-- Deployment with no configuration at all. -/
def cfgEmpty : Config :=
  ⟨Option.none, Option.none, Option.none, Option.none, Option.none,
    Option.none, Option.none, Option.none, "", ""⟩

/-- A query-string field occurs in a locator when `&key=` is a contiguous
substring of it. -/
def hasQueryField (url key : String) : Prop :=
  ("&" ++ key ++ "=").data <:+: url.data

/-- The player identifier `get_playback_url` interpolates: the manual-source
one exactly when `force_select` is truthy, with the source's fallbacks for
empty configuration values. -/
def playerOf (cfg : Config) (force_select : PyVal) : String :=
  if force_select.truthy then
    (if cfg.PLAYER_SELECT ≠ "" then cfg.PLAYER_SELECT
     else "fenlight_select.json")
  else
    (if cfg.PLAYER_DEFAULT ≠ "" then cfg.PLAYER_DEFAULT
     else "fenlight_auto.json")

/-- A yes-intent request echoing an `ask_playback_method` context with no
next-unwatched candidate stored. -/
def reqC1 : AlexaRequest :=
  ⟨"IntentRequest", "AMAZON.YesIntent", [],
    [("step", .str "ask_playback_method")], "fr-FR"⟩

/-- A yes-intent request echoing an `ask_playback_method` context carrying a
stored next-unwatched candidate (season 3, episode 5) for show 603. -/
def reqC1w : AlexaRequest :=
  ⟨"IntentRequest", "AMAZON.YesIntent", [],
    [("step", .str "ask_playback_method"), ("trakt_next_s", .int 3),
     ("trakt_next_e", .int 5), ("pending_show_id", .int 603),
     ("pending_show_name", .str "X")], "fr-FR"⟩

/-- A latest-episode request echoing an `ask_playback_method` context in
which the last-aired candidate is absent (`tmdb_last_s`/`tmdb_last_e` are
`None`). -/
def reqC5 : AlexaRequest :=
  ⟨"IntentRequest", "LatestEpisodeIntent", [],
    [("step", .str "ask_playback_method"), ("pending_show_id", .int 7),
     ("pending_show_name", .str "X"), ("tmdb_last_s", .none),
     ("tmdb_last_e", .none)], "fr-FR"⟩

/-- TMDB behaviour for the C6 scenario: searching the show `"x"` finds id 7
named `"X"`. -/
def tmdbC6 : TmdbEnv :=
  ⟨fun _ _ _ => .exn,
   fun q _ => if q = .str "x" then .resp 200 [(.int 7, .str "X")]
     else .resp 200 [],
   fun _ _ _ => .exn, fun _ => .exn⟩

/-- Trakt behaviour for the C6 scenario, fixed as a pure function of each
request: the search endpoint resolves show 7 to trakt id 9 under any token;
the progress endpoint answers 401 except to bearer token `"C"`, to which it
reports next episode (2, 4); the token-refresh endpoint rotates
`"rA" ↦ ("B", "rB")` and `"rB" ↦ ("C", "rC")`. -/
def traktC6 : TraktEnv :=
  ⟨fun url tok =>
    if url = trakt_search_url (.int 7) then .resp 200 (.searchResults [9])
    else if url = trakt_progress_url 9 then
      (if tok = "C" then .resp 200 (.progressBody (some (2, 4)))
       else .resp 401 .malformed)
    else .resp 404 .malformed,
   fun rt => if rt = "rA" then .resp 200 ("B", "rB")
     else if rt = "rB" then .resp 200 ("C", "rC")
     else .resp 400 ("", "")⟩

/-- Services for the C6 scenario. -/
def svC6 : Services :=
  ⟨tmdbC6, traktC6, .exn, Option.none, fun _ => Option.none⟩

/-- The replayed inbound request of the C6 scenario. -/
def reqC6 : AlexaRequest :=
  ⟨"IntentRequest", "ResumeTVShowIntent", [("ShowName", .str "x")], [],
    "fr-FR"⟩

/-- A deployment with the catalogue and progress-service credentials
configured. -/
def cfgC6 : Config :=
  ⟨some "tmdbkey", some "traktid", some "secret", Option.none, Option.none,
    Option.none, Option.none, Option.none, "", ""⟩

/-- A cancel request: its handling never touches the credential store. -/
def reqCancel : AlexaRequest :=
  ⟨"IntentRequest", "AMAZON.StopIntent", [], [], "fr-FR"⟩

/-- A successful refresh wrote the returned access token, paired with the
refresh token from the same exchange, as the whole persisted record. -/
theorem refresh_success_store {cfg : Config}
    {te : String → HttpOutcome (String × String)} {st st₂ : TokenStore}
    {a : String} (h : refresh_trakt_token_online cfg te st = (some a, st₂)) :
    ∃ r, st₂.file = some (a, r) := by
  unfold refresh_trakt_token_online at h
  split at h
  · exact absurd h (by simp)
  · split at h
    · exact absurd h (by simp)
    · split at h
      · exact absurd h (by simp)
      · split at h
        · rw [Prod.mk.injEq] at h
          obtain ⟨h1, h2⟩ := h
          cases Option.some.inj h1
          exact ⟨_, congrArg TokenStore.file h2.symm⟩
        · exact absurd h (by simp)

/-- A failed refresh (result `None`) leaves the token store untouched. -/
theorem refresh_failure_store {cfg : Config}
    {te : String → HttpOutcome (String × String)} {st st₂ : TokenStore}
    (h : refresh_trakt_token_online cfg te st = (Option.none, st₂)) :
    st₂ = st := by
  unfold refresh_trakt_token_online at h
  split at h
  · exact (congrArg Prod.snd h).symm
  · split at h
    · exact (congrArg Prod.snd h).symm
    · split at h
      · exact (congrArg Prod.snd h).symm
      · split at h
        · exact absurd h (by simp)
        · exact (congrArg Prod.snd h).symm

/-! ## C4 — refresh replaces the whole record or leaves it untouched -/

/-- A returned access token certifies a 200 exchange whose pair became the
whole new record. -/
theorem refresh_some_characterization {cfg : Config}
    {te : String → HttpOutcome (String × String)} {st st₂ : TokenStore}
    {a : String} (h : refresh_trakt_token_online cfg te st = (some a, st₂)) :
    ∃ rt r, get_refresh_token_from_storage cfg st = some rt ∧
      te rt = .resp 200 (a, r) ∧ st₂ = ⟨some (a, r)⟩ := by
  unfold refresh_trakt_token_online at h
  split at h
  · exact absurd h (by simp)
  next rt hload =>
    split at h
    · exact absurd h (by simp)
    · split at h
      · exact absurd h (by simp)
      next status b r hte =>
        split at h
        next h200 =>
          rw [Prod.mk.injEq] at h
          obtain ⟨h1, h2⟩ := h
          cases Option.some.inj h1
          exact ⟨rt, r, hload, by rw [hte, h200], h2.symm⟩
        · exact absurd h (by simp)

/-- C4: `refresh_trakt_token_online` on an HTTP 200 from the token endpoint
(given the stored refresh token and the client secret) replaces the persisted
credential record as a whole with the new access/refresh pair and returns the
new access token; whenever it returns `None` (missing refresh token or client
secret, non-200 response, or network exception) the persisted record is left
unmodified; and a returned access token always comes from such a 200
exchange, whose pair is exactly the new whole record — never a partial
write. -/
theorem refresh_whole_record_or_untouched (cfg : Config)
    (te : String → HttpOutcome (String × String)) (st : TokenStore) :
    (∀ rt a r, get_refresh_token_from_storage cfg st = some rt → rt ≠ "" →
      optTruthy cfg.TRAKT_CLIENT_SECRET = true → te rt = .resp 200 (a, r) →
      refresh_trakt_token_online cfg te st =
        (some a, (⟨some (a, r)⟩ : TokenStore))) ∧
    ((refresh_trakt_token_online cfg te st).1 = Option.none →
      (refresh_trakt_token_online cfg te st).2 = st) ∧
    (∀ a st₂, refresh_trakt_token_online cfg te st = (some a, st₂) →
      ∃ rt r, get_refresh_token_from_storage cfg st = some rt ∧
        te rt = .resp 200 (a, r) ∧ st₂ = ⟨some (a, r)⟩) := by
  refine ⟨?_, ?_, ?_⟩
  · intro rt a r hload hne hsec hte
    simp [refresh_trakt_token_online, hload, hne, hsec, hte,
      save_trakt_token_data]
  · intro h1
    rcases hr : refresh_trakt_token_online cfg te st with ⟨o, st₂⟩
    rw [hr] at h1
    obtain rfl : o = Option.none := h1
    exact refresh_failure_store hr
  · intro a st₂ h
    exact refresh_some_characterization h

/-- Witness for C4: one concrete successful exchange replaces the record
wholly. -/
theorem refresh_whole_record_or_untouched_witness :
    refresh_trakt_token_online cfgC6 traktC6.tokenEndpoint
        ⟨some ("A", "rA")⟩ =
      (some "B", (⟨some ("B", "rB")⟩ : TokenStore)) :=
  (refresh_whole_record_or_untouched cfgC6 traktC6.tokenEndpoint
    ⟨some ("A", "rA")⟩).1 "rA" "B" "rB" (by decide) (by decide) (by decide)
    (by decide)

/-! ## C2 — single 401-triggered refresh-and-retry per request -/

/-- C2: for every outbound progress-service request issued through the
`make_request` wrapper of `get_trakt_next_episode`: at most two HTTP requests
and at most one refresh happen; a non-401 response (or a network exception)
triggers no refresh and is surfaced directly; a 401 triggers exactly one
refresh, and — when the refresh succeeds — exactly one retry of the identical
URL carrying the new access token in the Authorization header, whose outcome
is surfaced as-is, with the persisted record now holding the new
access/refresh pair; when the refresh fails, the original 401 is surfaced and
the store is unchanged. -/
theorem resilient_request_single_refresh (cfg : Config) (env : TraktEnv)
    (url token : String) (st : TokenStore) :
    ((make_request cfg env url token st).2.2.2.requests.length ≤ 2 ∧
     (make_request cfg env url token st).2.2.2.refreshes ≤ 1) ∧
    (env.respond url token = .exn →
      make_request cfg env url token st =
        (.exn, token, st, ⟨[(url, token)], 0⟩)) ∧
    (∀ status body, env.respond url token = .resp status body → status ≠ 401 →
      make_request cfg env url token st =
        (.resp status body, token, st, ⟨[(url, token)], 0⟩)) ∧
    (∀ body, env.respond url token = .resp 401 body →
      (∀ t₂ st₂,
        refresh_trakt_token_online cfg env.tokenEndpoint st = (some t₂, st₂) →
        make_request cfg env url token st =
          (env.respond url t₂, t₂, st₂, ⟨[(url, token), (url, t₂)], 1⟩) ∧
        ∃ r₂, st₂.file = some (t₂, r₂)) ∧
      (∀ st₂,
        refresh_trakt_token_online cfg env.tokenEndpoint st =
          (Option.none, st₂) →
        make_request cfg env url token st =
          (.resp 401 body, token, st, ⟨[(url, token)], 1⟩))) := by
  refine ⟨?_, ?_, ?_, ?_⟩
  · rcases henv : env.respond url token with _ | ⟨status, body⟩
    · simp [make_request, henv]
    · by_cases hs : status = 401
      · rcases hr : refresh_trakt_token_online cfg env.tokenEndpoint st with
          ⟨t₂?, st₂⟩
        rcases t₂? with _ | t₂ <;> simp [make_request, henv, hs, hr]
      · simp [make_request, henv, hs]
  · intro henv
    simp [make_request, henv]
  · intro status body henv hs
    simp [make_request, henv, hs]
  · intro body henv
    constructor
    · intro t₂ st₂ hr
      exact ⟨by simp [make_request, henv, hr], refresh_success_store hr⟩
    · intro st₂ hr
      have hst : st₂ = st := refresh_failure_store hr
      subst hst
      simp [make_request, henv, hr]

/-- Witness for C2 at a concrete 401-then-refresh-then-retry run: the retry
carries the refreshed token `"N"` and its 200 outcome is surfaced. -/
theorem resilient_request_single_refresh_witness :
    make_request cfgFull envRetryTrakt "u" "O" ⟨some ("O", "rO")⟩ =
      (envRetryTrakt.respond "u" "N", "N", ⟨some ("N", "R")⟩,
        ⟨[("u", "O"), ("u", "N")], 1⟩) :=
  (((resilient_request_single_refresh cfgFull envRetryTrakt "u" "O"
      ⟨some ("O", "rO")⟩).2.2.2 .malformed (by decide)).1 "N" ⟨some ("N", "R")⟩
      (by decide)).1

/-! ## Helper lemmas about the polling loop of `wake_and_start_kodi` -/

/-- The polling loop performs at most `fuel` probes. -/
theorem wake_poll_loop_polls_le (cfg : Config) (probe : Nat → HttpOutcome Nat) :
    ∀ fuel i, (wake_poll_loop cfg probe fuel i).2.1 ≤ fuel := by
  intro fuel
  induction fuel with
  | zero => intro i; simp [wake_poll_loop]
  | succ n ih =>
    intro i
    by_cases h : is_kodi_responsive cfg (probe i) = true
    · simp [wake_poll_loop, h]
    · have h' : is_kodi_responsive cfg (probe i) = false := by simpa using h
      rcases hrec : wake_poll_loop cfg probe n (i + 1) with ⟨r, p, sflag⟩
      have := ih (i + 1)
      rw [hrec] at this
      simp at this
      simp [wake_poll_loop, h', hrec]
      omega

/-- If no probe ever succeeds, the polling loop reports failure. -/
theorem wake_poll_loop_never (cfg : Config) (probe : Nat → HttpOutcome Nat)
    (h : ∀ n, is_kodi_responsive cfg (probe n) = false) :
    ∀ fuel i, (wake_poll_loop cfg probe fuel i).1 = false := by
  intro fuel
  induction fuel with
  | zero => intro i; simp [wake_poll_loop]
  | succ n ih =>
    intro i
    rcases hrec : wake_poll_loop cfg probe n (i + 1) with ⟨r, p, sflag⟩
    have := ih (i + 1)
    rw [hrec] at this
    simp [wake_poll_loop, h i, hrec, this]

/-- A success reported by the polling loop was preceded by the stabilization
sleep. -/
theorem wake_poll_loop_stabilized (cfg : Config)
    (probe : Nat → HttpOutcome Nat) :
    ∀ fuel i, (wake_poll_loop cfg probe fuel i).1 = true →
      (wake_poll_loop cfg probe fuel i).2.2 = true := by
  intro fuel
  induction fuel with
  | zero => intro i; simp [wake_poll_loop]
  | succ n ih =>
    intro i
    by_cases h : is_kodi_responsive cfg (probe i) = true
    · simp [wake_poll_loop, h]
    · have h' : is_kodi_responsive cfg (probe i) = false := by simpa using h
      rcases hrec : wake_poll_loop cfg probe n (i + 1) with ⟨r, p, sflag⟩
      have := ih (i + 1)
      rw [hrec] at this
      simp [wake_poll_loop, h', hrec]
      exact this

/-! ## C3 — bounded wake side-effects, bounded polling, terminal failure -/

/-- C3: when the device is not initially responsive, `wake_and_start_kodi`
attempts each wake side-effect at most once (one Wake-on-LAN packet, one adb
connect, the two spaced WAKEUP key-events, at most one app launch), polls at
most 45 times in its one-second loop, stabilizes (4-second sleep) before any
success established during that polling loop, and returns failure — without
re-running the wake sequence — when the device never becomes responsive. -/
theorem wake_bounded_effects_and_failure (cfg : Config)
    (probe : Nat → HttpOutcome Nat)
    (h0 : is_kodi_responsive cfg (probe 0) = false) :
    (wake_and_start_kodi cfg probe).2.wol ≤ 1 ∧
    (wake_and_start_kodi cfg probe).2.adb_connect ≤ 1 ∧
    (wake_and_start_kodi cfg probe).2.wakeup_keyevents ≤ 2 ∧
    (wake_and_start_kodi cfg probe).2.app_launch ≤ 1 ∧
    (wake_and_start_kodi cfg probe).2.loop_polls ≤ 45 ∧
    ((wake_and_start_kodi cfg probe).1 = true →
      is_kodi_responsive cfg (probe 1) = false →
      (wake_and_start_kodi cfg probe).2.stabilized = true) ∧
    ((∀ n, is_kodi_responsive cfg (probe n) = false) →
      (wake_and_start_kodi cfg probe).1 = false) := by
  by_cases hc : optTruthy cfg.SHIELD_IP = false ∨ optTruthy cfg.SHIELD_MAC = false
  · simp [wake_and_start_kodi, hc]
  · by_cases h1 : is_kodi_responsive cfg (probe 1) = true
    · have h7 : (∀ n, is_kodi_responsive cfg (probe n) = false) →
          (wake_and_start_kodi cfg probe).1 = false :=
        fun hall => absurd (hall 1) (by simp [h1])
      refine ⟨?_, ?_, ?_, ?_, ?_, ?_, h7⟩ <;>
        simp [wake_and_start_kodi, hc, h0, h1]
    · have h1' : is_kodi_responsive cfg (probe 1) = false := by simpa using h1
      rcases hloop : wake_poll_loop cfg (fun i => probe (2 + i)) 45 0 with
        ⟨r, p, sflag⟩
      have hple := wake_poll_loop_polls_le cfg (fun i => probe (2 + i)) 45 0
      have hstab := wake_poll_loop_stabilized cfg (fun i => probe (2 + i)) 45 0
      rw [hloop] at hple hstab
      refine ⟨?_, ?_, ?_, ?_, ?_, ?_, ?_⟩ <;>
        simp [wake_and_start_kodi, hc, h0, h1', hloop]
      · exact hple
      · intro hr
        exact hstab hr
      · intro hall
        have hnever := wake_poll_loop_never cfg (fun i => probe (2 + i))
          (fun n => hall (2 + n)) 45 0
        rw [hloop] at hnever
        exact hnever

/-- Witness for C3 on a fully configured deployment whose device never
becomes responsive: the call fails, within the 45-poll budget. -/
theorem wake_bounded_effects_and_failure_witness :
    (wake_and_start_kodi cfgFull probeDown).1 = false ∧
    (wake_and_start_kodi cfgFull probeDown).2.loop_polls ≤ 45 :=
  have h := wake_bounded_effects_and_failure cfgFull probeDown (by decide)
  ⟨h.2.2.2.2.2.2 (fun _ => rfl), h.2.2.2.2.1⟩

/-! ## C7 — wake is a no-op when the device is already responsive -/

/-- Counterexample to C7 as stated: with `SHIELD_MAC` unset (and the control
endpoint configured and responsive), `is_kodi_responsive()` is true yet
`wake_and_start_kodi` returns failure, not immediate success. -/
theorem wake_noop_counterexample :
    is_kodi_responsive cfgNoMac (probeUp 0) = true ∧
    wake_and_start_kodi cfgNoMac probeUp =
      (false, ⟨0, 0, 0, 0, 0, 0, false⟩) := by decide

/-- C7 (amended): provided `SHIELD_IP` and `SHIELD_MAC` are configured,
invoking `wake_and_start_kodi` while `is_kodi_responsive()` is already true
returns success immediately after that single probe, with zero wake
side-effects. -/
theorem wake_noop_when_responsive (cfg : Config)
    (probe : Nat → HttpOutcome Nat)
    (hip : optTruthy cfg.SHIELD_IP = true)
    (hmac : optTruthy cfg.SHIELD_MAC = true)
    (h0 : is_kodi_responsive cfg (probe 0) = true) :
    wake_and_start_kodi cfg probe = (true, ⟨0, 0, 0, 0, 1, 0, false⟩) := by
  simp [wake_and_start_kodi, hip, hmac, h0]

/-- Witness for the amended C7 on a fully configured deployment with a
responsive device. -/
theorem wake_noop_when_responsive_witness :
    optTruthy cfgFull.SHIELD_IP = true ∧ optTruthy cfgFull.SHIELD_MAC = true ∧
    is_kodi_responsive cfgFull (probeUp 0) = true ∧
    wake_and_start_kodi cfgFull probeUp = (true, ⟨0, 0, 0, 0, 1, 0, false⟩) :=
  ⟨by decide, by decide, by decide,
    wake_noop_when_responsive cfgFull probeUp (by decide) (by decide)
      (by decide)⟩

/-! ## C8 — episode-existence check fails open on network errors -/

/-- C8: with the catalogue API key configured, whenever the underlying HTTP
request of `check_episode_exists` raises a network error, the check returns
`true` (fail-open), for every show id, season and episode. -/
theorem episode_exists_fail_open (cfg : Config) (env : TmdbEnv)
    (tmdb_id season episode : PyVal)
    (hkey : optTruthy cfg.TMDB_API_KEY = true)
    (hexn : env.episode tmdb_id season episode = .exn) :
    check_episode_exists cfg env tmdb_id season episode = true := by
  simp [check_episode_exists, hkey, hexn]

/-- Witness for C8: a concrete all-raising TMDB service. -/
theorem episode_exists_fail_open_witness :
    optTruthy cfgFull.TMDB_API_KEY = true ∧
    check_episode_exists cfgFull envExnTmdb (.int 1) (.int 2) (.int 3) = true :=
  ⟨by decide,
    episode_exists_fail_open cfgFull envExnTmdb (.int 1) (.int 2) (.int 3)
      (by decide) rfl⟩

/-! ## C10 — missing catalogue key fails closed -/

/-- C10: when the TMDB API key is unset, `check_episode_exists` returns
`false` for every show id, season and episode under every service behaviour
(so no network request influences the result), and a direct season/episode
play request resolved through a pending show id is refused with the
"episode not found" reply, dispatching nothing: configuration absence fails
closed, the opposite of the fail-open behaviour on network faults. -/
theorem episode_check_fails_closed_without_key (cfg : Config)
    (hkey : optTruthy cfg.TMDB_API_KEY = false) :
    (∀ env tmdb_id season episode,
      check_episode_exists cfg env tmdb_id season episode = false) ∧
    (∀ (sv : Services) (st : TokenStore)
      (slots attributes : List (String × PyVal)) (locale : String),
      (dget slots "ShowName").truthy = false →
      (dget attributes "pending_show_id").truthy = true →
      (dget slots "Season").truthy = true →
      (dget slots "Episode").truthy = true →
      (alexa_handler cfg sv
        ⟨"IntentRequest", "PlayTVShowIntent", slots, attributes, locale⟩
        st).response.text =
        get_text "episode_not_found"
          ⟨locale.data.takeWhile (fun c => c ≠ '-')⟩ [] ∧
      (alexa_handler cfg sv
        ⟨"IntentRequest", "PlayTVShowIntent", slots, attributes, locale⟩
        st).dispatches = []) := by
  constructor
  · intro env tmdb_id season episode
    simp [check_episode_exists, hkey]
  · intro sv st slots attributes locale hq hpend hs he
    constructor <;>
      simp [alexa_handler, hq, hpend, hs, he, check_episode_exists, hkey,
        build_response]

/-- Witness for C10: concrete key-less deployment, pending show id `7`,
season 3 / episode 5 slots. -/
theorem episode_check_fails_closed_without_key_witness :
    check_episode_exists cfgEmpty envExnTmdb (.int 7) (.int 3) (.int 5) =
      false ∧
    (alexa_handler cfgEmpty svExn
      ⟨"IntentRequest", "PlayTVShowIntent",
        [("Season", .str "3"), ("Episode", .str "5")],
        [("pending_show_id", .int 7), ("pending_show_name", .str "X")],
        "fr-FR"⟩ ⟨Option.none⟩).response.text =
      get_text "episode_not_found"
        ⟨"fr-FR".data.takeWhile (fun c => c ≠ '-')⟩ [] :=
  have h := episode_check_fails_closed_without_key cfgEmpty (by decide)
  ⟨h.1 envExnTmdb (.int 7) (.int 3) (.int 5),
    (h.2 svExn ⟨Option.none⟩ _ _ _ (by decide) (by decide) (by decide)
      (by decide)).1⟩

/-! ## Helper lemmas for locator field analysis

A query field `key` occurs in a locator iff `&key=` occurs as a contiguous
substring; non-occurrence proofs reduce to the two-character window `&` then
first-letter-of-`key`, which can only cross chunk boundaries of the
concatenated locator where the left chunk ends in `&`. -/

/-- A two-character infix of an append is an infix of a part or straddles the
boundary. -/
theorem pair_infix_append {a b : Char} :
    ∀ {l₁ l₂ : List Char}, [a, b] <:+: l₁ ++ l₂ →
      [a, b] <:+: l₁ ∨ [a, b] <:+: l₂ ∨
        (l₁.getLast? = some a ∧ l₂.head? = some b) := by
  intro l₁
  induction l₁ with
  | nil => intro l₂ h; exact Or.inr (Or.inl (by simpa using h))
  | cons x l₁ ih =>
    intro l₂ h
    rw [List.cons_append] at h
    rcases List.infix_cons_iff.mp h with hpre | hinf
    · rw [List.cons_prefix_cons] at hpre
      obtain ⟨ha, hb⟩ := hpre
      subst ha
      cases l₁ with
      | nil =>
        rw [List.nil_append] at hb
        cases l₂ with
        | nil => simp at hb
        | cons y t =>
          rw [List.cons_prefix_cons] at hb
          obtain ⟨hby, -⟩ := hb
          exact Or.inr (Or.inr ⟨by simp, by simp [hby]⟩)
      | cons y l₁' =>
        rw [List.cons_append, List.cons_prefix_cons] at hb
        obtain ⟨hby, -⟩ := hb
        subst hby
        exact Or.inl (List.IsPrefix.isInfix ⟨l₁', rfl⟩)
    · rcases ih hinf with h₁ | h₂ | ⟨hl, hh⟩
      · exact Or.inl (List.infix_cons h₁)
      · exact Or.inr (Or.inl h₂)
      · refine Or.inr (Or.inr ⟨?_, hh⟩)
        cases l₁ with
        | nil => simp at hl
        | cons z t => rw [List.getLast?_cons_cons]; exact hl

/-- A pair whose first element does not occur in a list is no infix of it. -/
theorem pair_not_infix_of_not_mem {a b : Char} {l : List Char} (h : a ∉ l) :
    ¬ [a, b] <:+: l := fun hin => h (hin.subset (by simp))

/-- A list not containing `a` does not end in `a`. -/
theorem getLast?_ne_of_not_mem {a : Char} {l : List Char} (h : a ∉ l) :
    l.getLast? ≠ some a := fun hl => h (List.mem_of_getLast?_eq_some hl)

/-- Chunk rule: a pair absent from both parts, with the left part not ending
in its first element, is absent from the append. -/
theorem pair_not_infix_append {a b : Char} {l₁ l₂ : List Char}
    (h₁ : ¬ [a, b] <:+: l₁) (h₂ : ¬ [a, b] <:+: l₂)
    (h₃ : l₁.getLast? ≠ some a) : ¬ [a, b] <:+: l₁ ++ l₂ := by
  intro h
  rcases pair_infix_append h with h' | h' | ⟨hl, -⟩
  exacts [h₁ h', h₂ h', h₃ hl]

/-- An infix of the right part is an infix of the append. -/
theorem infix_append_left {α : Type} {p t : List α} (l : List α)
    (h : p <:+: t) : p <:+: l ++ t := by
  obtain ⟨s, u, rfl⟩ := h
  exact ⟨l ++ s, u, by simp⟩

/-- The movie locator, written as one explicit concatenation. -/
theorem get_playback_url_movie_eq (cfg : Config)
    (tmdb_id season episode fsel : PyVal) :
    get_playback_url cfg tmdb_id "movie" season episode fsel =
      some ("plugin://plugin.video.themoviedb.helper/?info=play&player=" ++
        playerOf cfg fsel ++ "&tmdb_id=" ++ tmdb_id.toStr ++ "&type=movie") :=
  by simp [get_playback_url, playerOf]

/-- The episode locator, written as one explicit concatenation. -/
theorem get_playback_url_episode_eq (cfg : Config)
    (tmdb_id season episode fsel : PyVal) :
    get_playback_url cfg tmdb_id "episode" season episode fsel =
      some ("plugin://plugin.video.themoviedb.helper/?info=play&player=" ++
        playerOf cfg fsel ++ "&tmdb_id=" ++ tmdb_id.toStr ++ "&season=" ++
        season.toStr ++ "&episode=" ++ episode.toStr ++ "&type=episode") :=
  by simp [get_playback_url, playerOf]

/-- The effective player identifier contains no ampersand when the configured
identifiers do not. -/
theorem amp_not_mem_playerOf (cfg : Config) (fsel : PyVal)
    (hdef : '&' ∉ cfg.PLAYER_DEFAULT.data)
    (hsel : '&' ∉ cfg.PLAYER_SELECT.data) :
    '&' ∉ (playerOf cfg fsel).data := by
  unfold playerOf
  split
  · split
    · exact hsel
    · decide
  · split
    · exact hdef
    · decide

/-- No `['&', b]` window occurs in the movie locator's chunk decomposition
when neither the player chunk nor the id chunk contains an ampersand and the
fixed chunks are window-free. -/
theorem no_amp_pair_movie {b : Char} {P I : List Char}
    (hP : '&' ∉ P) (hI : '&' ∉ I)
    (h1 : ¬ ['&', b] <:+:
      "plugin://plugin.video.themoviedb.helper/?info=play&player=".data)
    (h4 : ¬ ['&', b] <:+: "&tmdb_id=".data)
    (h6 : ¬ ['&', b] <:+: "&type=movie".data) :
    ¬ ['&', b] <:+:
      ("plugin://plugin.video.themoviedb.helper/?info=play&player=".data ++
        (P ++ ("&tmdb_id=".data ++ (I ++ "&type=movie".data)))) := by
  refine pair_not_infix_append h1 ?_ (by decide)
  refine pair_not_infix_append (pair_not_infix_of_not_mem hP) ?_
    (getLast?_ne_of_not_mem hP)
  refine pair_not_infix_append h4 ?_ (by decide)
  exact pair_not_infix_append (pair_not_infix_of_not_mem hI) h6
    (getLast?_ne_of_not_mem hI)

/-- Movie locators carry neither a `season` nor an `episode` query field. -/
theorem movie_locator_no_fields (cfg : Config)
    (tmdb_id season episode fsel : PyVal)
    (hdef : '&' ∉ cfg.PLAYER_DEFAULT.data)
    (hsel : '&' ∉ cfg.PLAYER_SELECT.data)
    (hid : '&' ∉ tmdb_id.toStr.data) :
    ∀ url, get_playback_url cfg tmdb_id "movie" season episode fsel = some url →
      ¬ hasQueryField url "season" ∧ ¬ hasQueryField url "episode" := by
  intro url h
  rw [get_playback_url_movie_eq] at h
  injection h with h
  subst h
  have hP := amp_not_mem_playerOf cfg fsel hdef hsel
  have hchunks :
      ("plugin://plugin.video.themoviedb.helper/?info=play&player=" ++
        playerOf cfg fsel ++ "&tmdb_id=" ++ tmdb_id.toStr ++
        "&type=movie").data =
      ("plugin://plugin.video.themoviedb.helper/?info=play&player=".data ++
        ((playerOf cfg fsel).data ++ ("&tmdb_id=".data ++
          (tmdb_id.toStr.data ++ "&type=movie".data)))) := by
    simp
  constructor
  · intro hf
    have hws := List.IsInfix.trans (List.IsPrefix.isInfix
      (show ['&', 's'] <+: ("&" ++ "season" ++ "=").data from
        ⟨"eason=".data, by decide⟩)) hf
    rw [hchunks] at hws
    exact no_amp_pair_movie hP hid (by decide) (by decide) (by decide) hws
  · intro hf
    have hwe := List.IsInfix.trans (List.IsPrefix.isInfix
      (show ['&', 'e'] <+: ("&" ++ "episode" ++ "=").data from
        ⟨"pisode=".data, by decide⟩)) hf
    rw [hchunks] at hwe
    exact no_amp_pair_movie hP hid (by decide) (by decide) (by decide) hwe

/-- Episode locators always carry both a `season` and an `episode` query
field. -/
theorem episode_locator_has_fields (cfg : Config)
    (tmdb_id season episode fsel : PyVal) :
    ∀ url,
      get_playback_url cfg tmdb_id "episode" season episode fsel = some url →
      hasQueryField url "season" ∧ hasQueryField url "episode" := by
  intro url h
  rw [get_playback_url_episode_eq] at h
  injection h with h
  subst h
  constructor
  · show ("&" ++ "season" ++ "=").data <:+: _
    rw [show ("&" ++ "season" ++ "=" : String) = "&season=" by decide]
    simp only [String.data_append, List.append_assoc]
    refine infix_append_left _ (infix_append_left _ (infix_append_left _
      (infix_append_left _ ?_)))
    exact (List.prefix_append _ _).isInfix
  · show ("&" ++ "episode" ++ "=").data <:+: _
    rw [show ("&" ++ "episode" ++ "=" : String) = "&episode=" by decide]
    simp only [String.data_append, List.append_assoc]
    refine infix_append_left _ (infix_append_left _ (infix_append_left _
      (infix_append_left _ (infix_append_left _ (infix_append_left _ ?_)))))
    exact (List.prefix_append _ _).isInfix

/-- The locator exposes the automatic- or manual-source player exactly
according to `force_select`. -/
theorem locator_player_selection (cfg : Config)
    (tmdb_id season episode fsel : PyVal) (mt : String) :
    ∀ url, get_playback_url cfg tmdb_id mt season episode fsel = some url →
      ∃ rest, url =
        "plugin://plugin.video.themoviedb.helper/?info=play&player=" ++
        playerOf cfg fsel ++ rest := by
  intro url h
  by_cases hm : mt = "movie"
  · subst hm
    rw [get_playback_url_movie_eq] at h
    injection h with h
    subst h
    exact ⟨"&tmdb_id=" ++ tmdb_id.toStr ++ "&type=movie",
      by simp [String.append_assoc]⟩
  · by_cases he : mt = "episode"
    · subst he
      rw [get_playback_url_episode_eq] at h
      injection h with h
      subst h
      exact ⟨"&tmdb_id=" ++ tmdb_id.toStr ++ "&season=" ++ season.toStr ++
        "&episode=" ++ episode.toStr ++ "&type=episode",
        by simp [String.append_assoc]⟩
    · simp [get_playback_url, hm, he] at h

/-! ## C9 — locator construction: fields by media kind, player by source
mode -/

/-- C9: `get_playback_url` is a function of its arguments such that a movie
locator never contains a `season` or `episode` query field, an episode
locator always contains both, and every locator embeds the manual-source
player identifier exactly when `force_select` is truthy, else the
automatic-source one (`playerOf`).  The ampersand-freeness hypotheses hold for
the interpolated show id (a numeral in every call site) and the configured
player file names. -/
theorem build_locator_fields_and_player (cfg : Config)
    (tmdb_id season episode fsel : PyVal)
    (hdef : '&' ∉ cfg.PLAYER_DEFAULT.data)
    (hsel : '&' ∉ cfg.PLAYER_SELECT.data)
    (hid : '&' ∉ tmdb_id.toStr.data) :
    (∀ url,
      get_playback_url cfg tmdb_id "movie" season episode fsel = some url →
      ¬ hasQueryField url "season" ∧ ¬ hasQueryField url "episode") ∧
    (∀ url,
      get_playback_url cfg tmdb_id "episode" season episode fsel = some url →
      hasQueryField url "season" ∧ hasQueryField url "episode") ∧
    (∀ mt url,
      get_playback_url cfg tmdb_id mt season episode fsel = some url →
      ∃ rest, url =
        "plugin://plugin.video.themoviedb.helper/?info=play&player=" ++
        playerOf cfg fsel ++ rest) :=
  ⟨movie_locator_no_fields cfg tmdb_id season episode fsel hdef hsel hid,
   episode_locator_has_fields cfg tmdb_id season episode fsel,
   fun mt => locator_player_selection cfg tmdb_id season episode fsel mt⟩

/-- Witness for C9: concrete movie and episode locators for show id 603,
season 3, episode 5, default player configuration. -/
theorem build_locator_fields_and_player_witness :
    (¬ hasQueryField
      "plugin://plugin.video.themoviedb.helper/?info=play&player=fenlight_auto.json&tmdb_id=603&type=movie"
      "season") ∧
    hasQueryField
      "plugin://plugin.video.themoviedb.helper/?info=play&player=fenlight_auto.json&tmdb_id=603&season=3&episode=5&type=episode"
      "season" :=
  have h := build_locator_fields_and_player cfgEmpty (.int 603) (.int 3)
    (.int 5) (.bool false) (by decide) (by decide) (by decide)
  ⟨(h.1 _ (by decide)).1, (h.2.1 _ (by decide)).1⟩

/-! ## C1 — affirmative intent while awaiting the playback choice -/

/-- Counterexample to C1 as stated: in the no-candidate branch the reply is
the "nothing to resume" text, but the outbound context is emptied — it does
not stay in the `ask_playback_method` step. -/
theorem yes_intent_counterexample :
    dget reqC1.attributes "step" = PyVal.str "ask_playback_method" ∧
    (alexa_handler cfgEmpty svExn reqC1 ⟨Option.none⟩).response.text =
      get_text "no_history" "fr" [] ∧
    (alexa_handler cfgEmpty svExn reqC1 ⟨Option.none⟩).response.sessionAttributes
      = [] ∧
    dget (alexa_handler cfgEmpty svExn reqC1
        ⟨Option.none⟩).response.sessionAttributes "step" ≠
      PyVal.str "ask_playback_method" := by decide

/-- C1 (amended): with the echoed context in the `ask_playback_method` step,
an affirmative intent (`AMAZON.YesIntent`, `ResumeIntent` or
`ReprendreIntent`) with a truthy stored next-unwatched season dispatches
exactly the stored candidate — the locator carries the pending catalogue id,
`type=episode` and the stored season/episode — and empties the outbound
context; with no candidate it replies "nothing to resume" and the outbound
context is likewise emptied (reset, not kept in the current step). -/
theorem yes_intent_dispatch_and_context_reset (cfg : Config) (sv : Services)
    (st : TokenStore) (name : String)
    (slots attributes : List (String × PyVal)) (locale : String)
    (hn : name = "AMAZON.YesIntent" ∨ name = "ResumeIntent" ∨
      name = "ReprendreIntent")
    (hstep : dget attributes "step" = .str "ask_playback_method") :
    ((dget attributes "trakt_next_s").truthy = true →
      (alexa_handler cfg sv ⟨"IntentRequest", name, slots, attributes, locale⟩
          st).dispatches =
        [get_playback_url cfg (dget attributes "pending_show_id") "episode"
          (dget attributes "trakt_next_s") (dget attributes "trakt_next_e")
          (if (dget slots "SourceMode").truthy then .bool true
           else dgetD attributes "force_select" (.bool false))] ∧
      (alexa_handler cfg sv ⟨"IntentRequest", name, slots, attributes, locale⟩
          st).response.sessionAttributes = [] ∧
      (alexa_handler cfg sv ⟨"IntentRequest", name, slots, attributes, locale⟩
          st).store = st) ∧
    ((dget attributes "trakt_next_s").truthy = false →
      (alexa_handler cfg sv ⟨"IntentRequest", name, slots, attributes, locale⟩
          st).dispatches = [] ∧
      (alexa_handler cfg sv ⟨"IntentRequest", name, slots, attributes, locale⟩
          st).response.text =
        get_text "no_history" ⟨locale.data.takeWhile (fun c => c ≠ '-')⟩ [] ∧
      (alexa_handler cfg sv ⟨"IntentRequest", name, slots, attributes, locale⟩
          st).response.sessionAttributes = []) ∧
    (∀ (x a b : Int) (fs : PyVal),
      get_playback_url cfg (.int x) "episode" (.int a) (.int b) fs =
        some ("plugin://plugin.video.themoviedb.helper/?info=play&player=" ++
          playerOf cfg fs ++ "&tmdb_id=" ++ toString x ++ "&season=" ++
          toString a ++ "&episode=" ++ toString b ++ "&type=episode")) := by
  refine ⟨?_, ?_, ?_⟩
  · intro hs
    rcases hn with rfl | rfl | rfl <;>
      refine ⟨?_, ?_, ?_⟩ <;> simp [alexa_handler, hstep, hs, build_response]
  · intro hs
    rcases hn with rfl | rfl | rfl <;>
      refine ⟨?_, ?_, ?_⟩ <;> simp [alexa_handler, hstep, hs, build_response]
  · intro x a b fs
    rw [get_playback_url_episode_eq]
    rfl

/-- Witness for the amended C1: the concrete candidate is dispatched and the
outbound context is empty. -/
theorem yes_intent_dispatch_and_context_reset_witness :
    (alexa_handler cfgEmpty svExn reqC1w ⟨Option.none⟩).dispatches =
      [get_playback_url cfgEmpty (dget reqC1w.attributes "pending_show_id")
        "episode" (dget reqC1w.attributes "trakt_next_s")
        (dget reqC1w.attributes "trakt_next_e")
        (if (dget reqC1w.slots "SourceMode").truthy then .bool true
         else dgetD reqC1w.attributes "force_select" (.bool false))] ∧
    (alexa_handler cfgEmpty svExn reqC1w
      ⟨Option.none⟩).response.sessionAttributes = [] :=
  have h := yes_intent_dispatch_and_context_reset cfgEmpty svExn ⟨Option.none⟩
    "AMAZON.YesIntent" reqC1w.slots reqC1w.attributes reqC1w.locale
    (Or.inl rfl) (by decide)
  ⟨(h.1 (by decide)).1, (h.1 (by decide)).2.1⟩

/-! ## C5 — "latest episode" intent -/

/-- Counterexample to C5 as stated: in the `ask_playback_method` step with
the last-aired candidate absent, the code does not reply "unavailable" — it
replies the launch text and dispatches a locator with the absent values
serialized as `None`. -/
theorem latest_episode_counterexample :
    dget reqC5.attributes "tmdb_last_s" = PyVal.none ∧
    (alexa_handler cfgEmpty svExn reqC5 ⟨Option.none⟩).response.text ≠
      get_text "unavailable" "fr" [] ∧
    (alexa_handler cfgEmpty svExn reqC5 ⟨Option.none⟩).response.text =
      get_text "launch_last" "fr" [.str "X"] ∧
    (alexa_handler cfgEmpty svExn reqC5 ⟨Option.none⟩).dispatches =
      [some ("plugin://plugin.video.themoviedb.helper/?info=play&player=fenlight_auto.json&tmdb_id=7&season=None&episode=None&type=episode")]
    := by decide

/-- C5 (amended): a `LatestEpisodeIntent` received while the echoed context
is in the `ask_playback_method` step always dispatches a locator built from
the stored `tmdb_last_s`/`tmdb_last_e` values — with no presence check, absent
values being serialized as `None` — and replies the launch text; in any other
dialogue step it replies "unavailable" and dispatches nothing. -/
theorem latest_episode_dispatch (cfg : Config) (sv : Services)
    (st : TokenStore) (slots attributes : List (String × PyVal))
    (locale : String) :
    (dget attributes "step" = .str "ask_playback_method" →
      (alexa_handler cfg sv
          ⟨"IntentRequest", "LatestEpisodeIntent", slots, attributes, locale⟩
          st).dispatches =
        [get_playback_url cfg (dget attributes "pending_show_id") "episode"
          (dget attributes "tmdb_last_s") (dget attributes "tmdb_last_e")
          (if (dget slots "SourceMode").truthy then .bool true
           else dgetD attributes "force_select" (.bool false))] ∧
      (alexa_handler cfg sv
          ⟨"IntentRequest", "LatestEpisodeIntent", slots, attributes, locale⟩
          st).response.text =
        get_text "launch_last" ⟨locale.data.takeWhile (fun c => c ≠ '-')⟩
          [dgetD attributes "pending_show_name" (.str "show")]) ∧
    (dget attributes "step" ≠ .str "ask_playback_method" →
      (alexa_handler cfg sv
          ⟨"IntentRequest", "LatestEpisodeIntent", slots, attributes, locale⟩
          st).response.text =
        get_text "unavailable" ⟨locale.data.takeWhile (fun c => c ≠ '-')⟩ [] ∧
      (alexa_handler cfg sv
          ⟨"IntentRequest", "LatestEpisodeIntent", slots, attributes, locale⟩
          st).dispatches = []) := by
  constructor
  · intro hstep
    constructor <;> simp [alexa_handler, hstep, build_response]
  · intro hstep
    constructor <;> simp [alexa_handler, hstep, build_response]

/-- Witness for the amended C5 on the concrete absent-candidate context. -/
theorem latest_episode_dispatch_witness :
    (alexa_handler cfgEmpty svExn reqC5 ⟨Option.none⟩).response.text =
      get_text "launch_last" ⟨"fr-FR".data.takeWhile (fun c => c ≠ '-')⟩
        [dgetD reqC5.attributes "pending_show_name" (.str "show")] :=
  have h := latest_episode_dispatch cfgEmpty svExn ⟨Option.none⟩ reqC5.slots
    reqC5.attributes reqC5.locale
  (h.1 (by decide)).2

/-! ## C6 — determinism across replays and the credential store -/

/-- Counterexample to C6 as stated: replaying the identical request against
identical external-service behaviour yields a different reply, because the
first run's successful 401-triggered refresh rewrote the server-side
credential file; the second run starts from that store and reaches the
progress data.  Hidden server-side state does influence the response. -/
theorem handler_reply_depends_on_server_store :
    (alexa_handler cfgC6 svC6 reqC6 ⟨some ("A", "rA")⟩).store =
      (⟨some ("B", "rB")⟩ : TokenStore) ∧
    (alexa_handler cfgC6 svC6 reqC6 ⟨some ("A", "rA")⟩).response.text =
      get_text "no_progress" "fr" [.str "X"] ∧
    (alexa_handler cfgC6 svC6 reqC6 ⟨some ("B", "rB")⟩).response.text =
      get_text "resume_show" "fr" [.str "X", .int 2, .int 4, .str ""] ∧
    (alexa_handler cfgC6 svC6 reqC6 ⟨some ("B", "rB")⟩).response.text ≠
      (alexa_handler cfgC6 svC6 reqC6 ⟨some ("A", "rA")⟩).response.text := by
  decide

/-- C6 (amended): for fixed external-service behaviour the handler's reply is
a deterministic function of the inbound request and the persisted credential
record; replaying the identical request is guaranteed to produce the identical
response whenever the first run left the credential record unchanged.  The
record — server-side state rewritten by successful 401-triggered refreshes —
is the one input beyond the echoed context that can alter a replay. -/
theorem handler_deterministic_modulo_store (cfg : Config) (sv : Services)
    (req : AlexaRequest) (st : TokenStore)
    (hfix : (alexa_handler cfg sv req st).store = st) :
    alexa_handler cfg sv req ((alexa_handler cfg sv req st).store) =
      alexa_handler cfg sv req st := by
  rw [hfix]

/-- Witness for the amended C6: a run that leaves the store unchanged replays
identically. -/
theorem handler_deterministic_modulo_store_witness :
    (alexa_handler cfgC6 svC6 reqCancel ⟨some ("A", "rA")⟩).store =
      (⟨some ("A", "rA")⟩ : TokenStore) ∧
    alexa_handler cfgC6 svC6 reqCancel
        ((alexa_handler cfgC6 svC6 reqCancel ⟨some ("A", "rA")⟩).store) =
      alexa_handler cfgC6 svC6 reqCancel ⟨some ("A", "rA")⟩ :=
  ⟨by decide,
    handler_deterministic_modulo_store cfgC6 svC6 reqCancel ⟨some ("A", "rA")⟩
      (by decide)⟩

end KodiSkill
